import Mathlib

/-
  Verification development for the mailbox-monitor repository.

  The Python sources are embedded shallowly:
  - regular-expression based field extraction (email_monitor._extract_issue_info)
    is modelled by explicit character-list scanners that reproduce the
    backtracking semantics (greedy / lazy quantifiers, leftmost match,
    case-insensitive flags) of each concrete pattern in the source;
  - the decision logic of main.MailboxMonitor.process_gitlab_notification is a
    pure function over the extracted notification, the (optional) AI prediction
    and the policy (min_confidence, dry_run);
  - gitlab_client is modelled with an explicit GitLabState; the external API
    calls become lookups / updates on that state, and performed mutations are
    recorded as an effect trace;
  - ai_client._validate_prediction_response is modelled over a JSON-like value
    type (Python booleans count as numbers, as isinstance(x, (int, float))
    accepts bool).
-/

namespace MailboxMonitor

/-! ### Character classes and small string utilities (Python `re` semantics) -/

/-- Python whitespace class `\s` (ASCII part, sufficient for the inputs considered). -/
def isPyWs (c : Char) : Bool :=
  c = ' ' || c = '\t' || c = '\n' || c = '\r' || c = '\x0b' || c = '\x0c'

/-- ASCII lower-casing, as used by `re.IGNORECASE` on ASCII letters. -/
def asciiLower (c : Char) : Char :=
  if 'A' ≤ c ∧ c ≤ 'Z' then Char.ofNat (c.toNat + 32) else c

/-- Python `str.strip()` on a character list. -/
def pyStrip (cs : List Char) : List Char :=
  ((cs.dropWhile isPyWs).reverse.dropWhile isPyWs).reverse

/-- Match a literal, case-sensitively; return the remainder on success. -/
def stripLit : List Char → List Char → Option (List Char)
  | [], rest => some rest
  | _ :: _, [] => none
  | p :: ps, c :: cs => if c = p then stripLit ps cs else none

/-- Match a literal, case-insensitively (ASCII); return the remainder on success. -/
def stripLitCI : List Char → List Char → Option (List Char)
  | [], rest => some rest
  | _ :: _, [] => none
  | p :: ps, c :: cs => if asciiLower c = asciiLower p then stripLitCI ps cs else none

/-- Leftmost search: try the position matcher on every suffix, left to right,
    as `re.search` does. -/
def searchFirst (f : List Char → Option α) : List Char → Option α
  | [] => f []
  | c :: cs =>
    match f (c :: cs) with
    | some r => some r
    | none => searchFirst f cs

/-- Lazy `(.+?)` (without DOTALL: `.` refuses a newline) followed by a
    deterministic test on the remainder: the group grows one character at a
    time and stops at the first remainder accepted by the test. -/
def lazyDotPlus (test : List Char → Bool) : List Char → Option (List Char)
  | [] => none
  | c :: cs =>
    if c = '\n' then none
    else if test cs then some [c]
    else (lazyDotPlus test cs).map (fun g => c :: g)

/-- Lazy `(.*?)` with DOTALL followed by a deterministic test: the group may be
    empty and may contain newlines. -/
def lazyDotStarD (test : List Char → Bool) : List Char → Option (List Char)
  | [] => if test [] then some [] else none
  | c :: cs =>
    if test (c :: cs) then some []
    else (lazyDotStarD test cs).map (fun g => c :: g)

/-- Greedy `\s*` followed by a lazy `(.+?)` group: the regex engine first
    consumes as much whitespace as possible and, on failure of the rest of the
    pattern, backtracks the whitespace run one character at a time. -/
def wsLazy (test : List Char → Bool) : List Char → Option (List Char)
  | [] => none
  | c :: cs =>
    if isPyWs c then
      match wsLazy test cs with
      | some g => some g
      | none => lazyDotPlus test (c :: cs)
    else lazyDotPlus test (c :: cs)

/-- Greedy `\s*` followed by a literal `\n`, then a lazy DOTALL group: the
    engine prefers the latest newline inside the whitespace run and backtracks
    to earlier newlines when the rest of the pattern fails. -/
def wsNlLazyD (test : List Char → Bool) : List Char → Option (List Char)
  | [] => none
  | c :: cs =>
    if isPyWs c then
      match wsNlLazyD test cs with
      | some g => some g
      | none => if c = '\n' then lazyDotStarD test cs else none
    else none

/-! ### The extracted notification (email_monitor.py dict keys) -/

/-- One parsed notification: the dict built by
    EmailMonitor._extract_issue_info.  A key absent from the dict is `none`;
    the source never stores Python None for a present key. -/
structure IssueNotification where
  url : Option String
  title : Option String
  issue_number : Option String
  current_assignee : Option String
  description : Option String
  labels : Option (List String)
  project : Option String
deriving DecidableEq

/-! ### URL extraction: `https?://[^\s]+/(?:issues|merge_requests)/\d+` -/

/-- Recognise `/(?:issues|merge_requests)/\d+` at the head of the run;
    return the consumed characters (marker plus the greedy digit run). -/
def urlMarkerAt (cs : List Char) : Option (List Char) :=
  match stripLit "/issues/".toList cs with
  | some r =>
    let ds := r.takeWhile Char.isDigit
    if ds.isEmpty then none else some ("/issues/".toList ++ ds)
  | none =>
    match stripLit "/merge_requests/".toList cs with
    | some r =>
      let ds := r.takeWhile Char.isDigit
      if ds.isEmpty then none else some ("/merge_requests/".toList ++ ds)
    | none => none

/-- Deepest (rightmost) split of the list at which the position matcher
    succeeds: this realises the greedy backtracking of `[^\s]+` in front of
    the issue marker. -/
def lastSplit (p : List Char → Option α) : List Char → Option (List Char × α)
  | [] => none
  | c :: cs =>
    match lastSplit p cs with
    | some (b, r) => some (c :: b, r)
    | none =>
      match p (c :: cs) with
      | some r => some ([], r)
      | none => none

/-- The whole-match text of the URL pattern at one position, or `none`. -/
def urlMatchAt (cs : List Char) : Option (List Char) :=
  match stripLit "http".toList cs with
  | none => none
  | some r1 =>
    let afterScheme : Option (Bool × List Char) :=
      match stripLit "s://".toList r1 with
      | some r => some (true, r)
      | none =>
        match stripLit "://".toList r1 with
        | some r => some (false, r)
        | none => none
    match afterScheme with
    | none => none
    | some (hasS, r2) =>
      let run := r2.takeWhile (fun c => !(isPyWs c))
      match lastSplit urlMarkerAt run with
      | some (b, m) =>
        if b.isEmpty then none
        else some ((if hasS then "https://".toList else "http://".toList) ++ b ++ m)
      | none => none

/-- First URL-shaped substring of the body (email_monitor.py line 172-175). -/
def extract_url (body : String) : Option String :=
  (searchFirst urlMatchAt body.toList).map String.mk

/-! ### Title extraction: the four ordered subject patterns -/

/-- Test for the remainder after the group in `(.+?)\s*\|` (pattern 4, and the
    tail of pattern 1): skip whitespace and require a pipe. -/
def testPipe (cs : List Char) : Bool :=
  match cs.dropWhile isPyWs with
  | '|' :: _ => true
  | _ => false

/-- Test for the remainder after the group in `(.+?)\s*\(#\d+\)\s*\|`. -/
def testHashParen (cs : List Char) : Bool :=
  match stripLit "(#".toList (cs.dropWhile isPyWs) with
  | none => false
  | some r2 =>
    let ds := r2.takeWhile Char.isDigit
    if ds.isEmpty then false
    else
      match r2.drop ds.length with
      | ')' :: r3 => testPipe r3
      | _ => false

/-- Test for the remainder after the group in `(.+?)\s*-\s*Issue #\d+`. -/
def testDashIssue (cs : List Char) : Bool :=
  match cs.dropWhile isPyWs with
  | '-' :: r =>
    match stripLit "Issue #".toList (r.dropWhile isPyWs) with
    | some r2 => !(r2.takeWhile Char.isDigit).isEmpty
    | none => false
  | _ => false

/-- Position matcher for `Issue #\d+:\s*(.+?)\s*\|`. -/
def titlePat1At (cs : List Char) : Option (List Char) :=
  match stripLit "Issue #".toList cs with
  | none => none
  | some r1 =>
    let ds := r1.takeWhile Char.isDigit
    if ds.isEmpty then none
    else
      match r1.drop ds.length with
      | ':' :: r2 => wsLazy testPipe r2
      | _ => none

/-- Title from the subject: four patterns tried in order, first match wins,
    captured group trimmed (email_monitor.py lines 181-192). -/
def extract_title (subject : String) : Option String :=
  let s := subject.toList
  match searchFirst titlePat1At s with
  | some g => some (String.mk (pyStrip g))
  | none =>
    match searchFirst (lazyDotPlus testHashParen) s with
    | some g => some (String.mk (pyStrip g))
    | none =>
      match searchFirst (lazyDotPlus testDashIssue) s with
      | some g => some (String.mk (pyStrip g))
      | none =>
        match searchFirst (lazyDotPlus testPipe) s with
        | some g => some (String.mk (pyStrip g))
        | none => none

/-! ### Issue number: `#(\d+)` on the subject -/

def issueNumAt : List Char → Option (List Char)
  | '#' :: r =>
    let ds := r.takeWhile Char.isDigit
    if ds.isEmpty then none else some ds
  | _ => none

def extract_issue_number (subject : String) : Option String :=
  (searchFirst issueNumAt subject.toList).map String.mk

/-! ### Current assignee: three case-insensitive body patterns -/

/-- Capture of `@?([^\s\n]+)` after the literal; `needWs` distinguishes the
    `\s+` of pattern 1 from the `\s*` of patterns 2 and 3.  When the optional
    `@` is followed by whitespace or the end, the engine backtracks and the
    capture starts at the `@` itself. -/
def assigneeCapture (afterLit : List Char) (needWs : Bool) : Option (List Char) :=
  if needWs ∧ (afterLit.takeWhile isPyWs).isEmpty then none
  else
    match afterLit.dropWhile isPyWs with
    | '@' :: rest =>
      let cap := rest.takeWhile (fun c => !(isPyWs c))
      if cap.isEmpty then some ['@'] else some cap
    | r =>
      let cap := r.takeWhile (fun c => !(isPyWs c))
      if cap.isEmpty then none else some cap

def assigneePat1At (cs : List Char) : Option (List Char) :=
  (stripLitCI "assigned to".toList cs).bind (fun r => assigneeCapture r true)

def assigneePat2At (cs : List Char) : Option (List Char) :=
  (stripLitCI "assignee:".toList cs).bind (fun r => assigneeCapture r false)

/-- Assignee from the body (email_monitor.py lines 200-210).  The source lists
    three patterns; under IGNORECASE the third (`Assignee:`) is the same
    matcher as the second (`assignee:`), so a third search can never fire when
    the second failed. -/
def extract_current_assignee (body : String) : Option String :=
  let b := body.toList
  match searchFirst assigneePat1At b with
  | some g => some (String.mk (pyStrip g))
  | none =>
    match searchFirst assigneePat2At b with
    | some g => some (String.mk (pyStrip g))
    | none => none

/-! ### Description: `(?:Description|Summary):\s*\n(.*?)(?:\n\n|\n---|\nAssignee)` -/

/-- Terminator test for the description group (DOTALL, IGNORECASE). -/
def descEnd (cs : List Char) : Bool :=
  match cs with
  | '\n' :: r =>
    (match r with
     | '\n' :: _ => true
     | _ => (stripLit "---".toList r).isSome || (stripLitCI "assignee".toList r).isSome)
  | _ => false

def descMatchAt (cs : List Char) : Option (List Char) :=
  let afterLit : Option (List Char) :=
    match stripLitCI "description:".toList cs with
    | some r => some r
    | none => stripLitCI "summary:".toList cs
  match afterLit with
  | none => none
  | some r => wsNlLazyD descEnd r

/-- Description from the body, trimmed and truncated to 500 characters
    (email_monitor.py lines 213-215). -/
def extract_description (body : String) : Option String :=
  (searchFirst descMatchAt body.toList).map (fun g => String.mk ((pyStrip g).take 500))

/-! ### Labels and project: `Labels?:\s*([^\n]+)` and `(?:Project|Repository):\s*([^\n]+)` -/

/-- Capture of `\s*([^\n]+)`: greedy whitespace first; when only whitespace
    remains the engine backtracks so that the non-newline class captures the
    last whitespace character that is not a newline. -/
def wsLineCapture (r : List Char) : Option (List Char) :=
  let rest := r.dropWhile isPyWs
  if !rest.isEmpty then some (rest.takeWhile (fun c => c ≠ '\n'))
  else
    match (r.takeWhile isPyWs).reverse.dropWhile (fun c => c = '\n') with
    | c :: _ => some [c]
    | [] => none

def labelsPatAt (cs : List Char) : Option (List Char) :=
  match stripLitCI "label".toList cs with
  | none => none
  | some r =>
    let afterColon : Option (List Char) :=
      match r with
      | c :: rest =>
        if asciiLower c = 's' then
          match rest with
          | ':' :: r3 => some r3
          | _ => none
        else if c = ':' then some rest
        else none
      | [] => none
    afterColon.bind wsLineCapture

/-- Python `"x,y".split(',')`, keeping empty pieces. -/
def splitComma : List Char → List (List Char)
  | [] => [[]]
  | ',' :: rest => [] :: splitComma rest
  | c :: rest =>
    match splitComma rest with
    | g :: gs => (c :: g) :: gs
    | [] => [[c]]

/-- Labels from the body: capture trimmed, split on commas, entries trimmed,
    empty entries dropped (email_monitor.py lines 218-221).  A matched marker
    whose entries are all blank stores an empty list. -/
def extract_labels (body : String) : Option (List String) :=
  (searchFirst labelsPatAt body.toList).map (fun cap =>
    ((splitComma (pyStrip cap)).map pyStrip).filterMap
      (fun l => if l.isEmpty then none else some (String.mk l)))

def projectPatAt (cs : List Char) : Option (List Char) :=
  let afterLit : Option (List Char) :=
    match stripLitCI "project:".toList cs with
    | some r => some r
    | none => stripLitCI "repository:".toList cs
  afterLit.bind wsLineCapture

def extract_project (body : String) : Option String :=
  (searchFirst projectPatAt body.toList).map (fun g => String.mk (pyStrip g))

/-! ### The extractor itself -/

/-- EmailMonitor._extract_issue_info: every field extracted independently; the
    function returns the dict when it is non-empty and Python None otherwise
    (`return issue_info if issue_info else None`). -/
def extract_issue_info (subject body : String) : Option IssueNotification :=
  let n : IssueNotification :=
    { url := extract_url body
      title := extract_title subject
      issue_number := extract_issue_number subject
      current_assignee := extract_current_assignee body
      description := extract_description body
      labels := extract_labels body
      project := extract_project body }
  if n.url.isNone ∧ n.title.isNone ∧ n.issue_number.isNone ∧ n.current_assignee.isNone
     ∧ n.description.isNone ∧ n.labels.isNone ∧ n.project.isNone
  then none else some n

/-! ### AI client: response validation (ai_client._validate_prediction_response) -/

/-- JSON-like values as decoded by `response.json()`.  Python booleans are
    instances of `int`, so the numeric check of the source accepts them. -/
inductive JVal where
  | jnull
  | jbool (b : Bool)
  | jnum (q : ℚ)
  | jstr (s : String)
  | jarr (xs : List JVal)
  | jobj (fields : List (String × JVal))

/-- Key lookup in a decoded JSON object (first binding wins). -/
def jlookup (o : List (String × JVal)) (k : String) : Option JVal :=
  (o.find? (fun e => e.1 = k)).map (fun e => e.2)

/-- Python `isinstance(v, str)`. -/
def isStringVal : JVal → Bool
  | JVal.jstr _ => true
  | _ => false

/-- Python `isinstance(v, (int, float))`; a Python bool is an int. -/
def isNumberVal : JVal → Bool
  | JVal.jnum _ => true
  | JVal.jbool _ => true
  | _ => false

/-- Python `isinstance(v, list)`. -/
def isListVal : JVal → Bool
  | JVal.jarr _ => true
  | _ => false

/-- AIClient._validate_prediction_response (ai_client.py lines 128-160). -/
def validate_prediction_response (o : List (String × JVal)) : Bool :=
  match jlookup o "recommended_assignee" with
  | none => false
  | some v =>
    isStringVal v
    && (match jlookup o "confidence" with
        | none => true
        | some c => isNumberVal c)
    && (match jlookup o "alternatives" with
        | none => true
        | some a => isListVal a)

/-- The validated prediction as consumed by main.py: `recommended_assignee`
    (a string), optional numeric `confidence` (a Python bool coerces to 0/1),
    and `reasoning` defaulted to the empty string. -/
structure Prediction where
  recommended_assignee : String
  confidence : Option ℚ
  reasoning : String
deriving DecidableEq

/-- AIClient.predict_assignee after a well-formed HTTP round trip: the decoded
    object is validated; an invalid shape yields Python None. -/
def predict_assignee (o : List (String × JVal)) : Option Prediction :=
  if validate_prediction_response o then
    some
      { recommended_assignee :=
          match jlookup o "recommended_assignee" with
          | some (JVal.jstr s) => s
          | _ => ""
        confidence :=
          match jlookup o "confidence" with
          | some (JVal.jnum q) => some q
          | some (JVal.jbool b) => some (if b then 1 else 0)
          | _ => none
        reasoning :=
          match jlookup o "reasoning" with
          | some (JVal.jstr s) => s
          | _ => "" }
  else none

/-! ### GitLab client model (gitlab_client.py) -/

/-- One tracked issue: its single assignee and its comment thread. -/
structure GitLabIssue where
  assignee : Option String
  notes : List String
deriving DecidableEq

/-- The tracker-side state reachable through the GitLab API: issues keyed by
    (project path, issue iid), per-project member lists, and the global user
    directory used by users.list(username=...).  A key missing from a map
    models the corresponding API call failing (GitlabGetError). -/
structure GitLabState where
  issues : List ((String × Nat) × GitLabIssue)
  members : List (String × List String)
  users : List String
deriving DecidableEq

/-- Mutations actually performed against the tracker. -/
inductive Effect where
  | reassigned (projectPath : String) (issueIid : Nat) (assignee : String)
  | commented (projectPath : String) (issueIid : Nat) (body : String)
deriving DecidableEq

def getIssue (g : GitLabState) (proj : String) (iid : Nat) : Option GitLabIssue :=
  (g.issues.find? (fun e => e.1 = (proj, iid))).map (fun e => e.2)

def get_project_members (g : GitLabState) (proj : String) : Option (List String) :=
  (g.members.find? (fun e => e.1 = proj)).map (fun e => e.2)

/-- GitLabClient.validate_assignee (gitlab_client.py lines 253-283): an empty
    or unavailable member list rejects, otherwise membership decides. -/
def validate_assignee (g : GitLabState) (proj user : String) : Bool :=
  match get_project_members g proj with
  | none => false
  | some ms => if ms.isEmpty then false else ms.contains user

def setIssueAssignee (g : GitLabState) (proj : String) (iid : Nat) (user : String) :
    GitLabState :=
  { g with
    issues := g.issues.map (fun e =>
      if e.1 = (proj, iid) then (e.1, { e.2 with assignee := some user }) else e) }

def addIssueNote (g : GitLabState) (proj : String) (iid : Nat) (body : String) :
    GitLabState :=
  { g with
    issues := g.issues.map (fun e =>
      if e.1 = (proj, iid) then (e.1, { e.2 with notes := e.2.notes ++ [body] }) else e) }

/-- GitLabClient.reassign_issue (gitlab_client.py lines 128-165). -/
def reassign_issue (g : GitLabState) (proj : String) (iid : Nat) (user : String) :
    Bool × GitLabState × List Effect :=
  match getIssue g proj iid with
  | none => (false, g, [])
  | some _ =>
    if g.users.contains user then
      (true, setIssueAssignee g proj iid user, [Effect.reassigned proj iid user])
    else (false, g, [])

/-- GitLabClient.add_issue_comment (gitlab_client.py lines 167-194). -/
def add_issue_comment (g : GitLabState) (proj : String) (iid : Nat) (body : String) :
    Bool × GitLabState × List Effect :=
  match getIssue g proj iid with
  | none => (false, g, [])
  | some _ => (true, addIssueNote g proj iid body, [Effect.commented proj iid body])

/-! ### URL resolution (gitlab_client.parse_issue_url) -/

def isSchemeChar (c : Char) : Bool :=
  c.isAlpha || c.isDigit || c = '+' || c = '-' || c = '.'

/-- Strip a valid `scheme:` head the way urllib.parse does. -/
def removeScheme (cs : List Char) : List Char :=
  match cs.takeWhile (fun c => c ≠ ':') with
  | [] => cs
  | c :: rest =>
    if c.isAlpha ∧ (rest.all isSchemeChar) ∧ (c :: rest).length < cs.length
    then cs.drop ((c :: rest).length + 1)
    else cs

/-- The `.path` component of urllib.parse.urlparse: drop the fragment, the
    scheme and the authority, and stop at the query. -/
def urlPathOf (url : String) : List Char :=
  let noFrag := url.toList.takeWhile (fun c => c ≠ '#')
  let afterScheme := removeScheme noFrag
  let afterNetloc :=
    match afterScheme with
    | '/' :: '/' :: r => r.dropWhile (fun c => c ≠ '/' && c ≠ '?')
    | other => other
  afterNetloc.takeWhile (fun c => c ≠ '?')

def digitsToNat (ds : List Char) : Nat :=
  ds.foldl (fun n c => n * 10 + (c.toNat - '0'.toNat)) 0

/-- One of the four anchored path patterns
    `^/([^/]+/[^/]+)<mid>(\d+)` with `mid` the fixed infix. -/
def projPatAt (mid : List Char) (path : List Char) : Option (String × Nat) :=
  match path with
  | '/' :: r =>
    let s1 := r.takeWhile (fun c => c ≠ '/')
    if s1.isEmpty then none
    else
      match r.drop s1.length with
      | '/' :: r2 =>
        let s2 := r2.takeWhile (fun c => c ≠ '/')
        if s2.isEmpty then none
        else
          match stripLit mid (r2.drop s2.length) with
          | none => none
          | some r3 =>
            let ds := r3.takeWhile Char.isDigit
            if ds.isEmpty then none
            else some (String.mk (s1 ++ '/' :: s2), digitsToNat ds)
      | _ => none
  | _ => none

/-- GitLabClient.parse_issue_url (gitlab_client.py lines 36-72): urlparse, then
    the four anchored patterns tried in order. -/
def parse_issue_url (issue_url : String) : Option (String × Nat) :=
  let path := urlPathOf issue_url
  match projPatAt "/-/issues/".toList path with
  | some r => some r
  | none =>
    match projPatAt "/issues/".toList path with
    | some r => some r
    | none =>
      match projPatAt "/-/merge_requests/".toList path with
      | some r => some r
      | none => projPatAt "/merge_requests/".toList path

/-! ### Reassignment workflow (gitlab_client.process_reassignment) -/

/-- The audit comment built at gitlab_client.py lines 348-367. -/
def build_comment (current_assignee : Option String) (new_assignee reasoning : String) :
    String :=
  let old :=
    match current_assignee with
    | some s => if s = "" then "unassigned" else s
    | none => "unassigned"
  let parts1 :=
    ["🤖 **Automated Assignment Update**", "",
     "This issue has been reassigned from `" ++ old ++ "` to `" ++ new_assignee
       ++ "` based on AI analysis."]
  let parts2 := if reasoning = "" then [] else ["", "**AI Reasoning:**", reasoning]
  let parts3 :=
    ["", "---", "*This assignment was made automatically by the mailbox-monitor service.*"]
  String.intercalate "\n" (parts1 ++ parts2 ++ parts3)

/-- GitLabClient.process_reassignment (gitlab_client.py lines 306-375): parse
    the URL, validate the assignee, re-fetch the live issue, short-circuit when
    the live assignee already matches, otherwise reassign and post the audit
    comment (whose own failure is ignored). -/
def process_reassignment (g : GitLabState) (issue_url new_assignee reasoning : String) :
    Bool × GitLabState × List Effect :=
  match parse_issue_url issue_url with
  | none => (false, g, [])
  | some (proj, iid) =>
    if !(validate_assignee g proj new_assignee) then (false, g, [])
    else
      match getIssue g proj iid with
      | none => (false, g, [])
      | some issue =>
        if issue.assignee = some new_assignee then (true, g, [])
        else
          let r := reassign_issue g proj iid new_assignee
          if !r.1 then (false, r.2.1, r.2.2)
          else
            let comment := build_comment issue.assignee new_assignee reasoning
            let rc := add_issue_comment r.2.1 proj iid comment
            (true, rc.2.1, r.2.2 ++ rc.2.2)

/-! ### The decision step and the processing cycle (main.py) -/

/-- The application policy (main.py config keys app.min_confidence, app.dry_run). -/
structure Policy where
  min_confidence : ℚ
  dry_run : Bool
deriving DecidableEq

/-- Outcome of the decision logic of process_gitlab_notification, with the
    branch that produced it. -/
inductive Decision where
  | skipNoUrl
  | skipNoPrediction
  | skipLowConfidence
  | skipAlreadyAssigned
  | simulate (pred : Prediction)
  | applyTo (pred : Prediction)
deriving DecidableEq

/-- The three spec-level actions. -/
inductive Action where
  | skip
  | simulateApply
  | applyAction
deriving DecidableEq

def Decision.action : Decision → Action
  | .skipNoUrl => .skip
  | .skipNoPrediction => .skip
  | .skipLowConfidence => .skip
  | .skipAlreadyAssigned => .skip
  | .simulate _ => .simulateApply
  | .applyTo _ => .applyAction

/-- The decision logic of MailboxMonitor.process_gitlab_notification
    (main.py lines 200-231), as a pure function of its three inputs.
    Python truthiness makes an empty-string URL skip exactly like a missing
    one, and `email_data.get('current_assignee', '')` defaults an absent
    assignee to the empty string before the equality test. -/
def decideStep (n : IssueNotification) (p : Option Prediction) (pol : Policy) : Decision :=
  if n.url.getD "" = "" then .skipNoUrl
  else
    match p with
    | none => .skipNoPrediction
    | some pred =>
      if pred.confidence.getD 0 < pol.min_confidence then .skipLowConfidence
      else if n.current_assignee.getD "" = pred.recommended_assignee then .skipAlreadyAssigned
      else if pol.dry_run then .simulate pred
      else .applyTo pred

/-- MailboxMonitor.process_gitlab_notification (main.py lines 187-248).  The
    AI answer for the notification is an oracle input; the returned triple is
    the boolean result, the tracker state after the call, and the mutations
    performed. -/
def process_gitlab_notification (g : GitLabState) (n : IssueNotification)
    (p : Option Prediction) (pol : Policy) : Bool × GitLabState × List Effect :=
  match decideStep n p pol with
  | .skipNoUrl => (false, g, [])
  | .skipNoPrediction => (false, g, [])
  | .skipLowConfidence => (false, g, [])
  | .skipAlreadyAssigned => (true, g, [])
  | .simulate _ => (true, g, [])
  | .applyTo pred =>
    process_reassignment g (n.url.getD "") pred.recommended_assignee pred.reasoning

/-- MailboxMonitor.run_once (main.py lines 250-281): process the fetched
    notifications in order, counting the calls that returned True. -/
def run_once (g : GitLabState) (pol : Policy) :
    List (IssueNotification × Option Prediction) → Nat × GitLabState
  | [] => (0, g)
  | (n, p) :: rest =>
    let r := process_gitlab_notification g n p pol
    let rec_ := run_once r.2.1 pol rest
    ((if r.1 then 1 else 0) + rec_.1, rec_.2)

/-- The per-item boolean results of one cycle, with the state threaded exactly
    as run_once threads it. -/
def processResults (g : GitLabState) (pol : Policy) :
    List (IssueNotification × Option Prediction) → List Bool
  | [] => []
  | (n, p) :: rest =>
    let r := process_gitlab_notification g n p pol
    r.1 :: processResults r.2.1 pol rest

/-! ### The spec's ordered rule list for the decision step -/

/-- Input triple of the decision step. -/
structure DecInput where
  n : IssueNotification
  p : Option Prediction
  pol : Policy

/-- First-match-wins evaluation of an ordered (predicate, action) list. -/
def firstMatch (rules : List ((DecInput → Bool) × Action)) (dflt : Action)
    (x : DecInput) : Action :=
  match rules.find? (fun r => r.1 x) with
  | some r => r.2
  | none => dflt

/-- The rule list exactly as the claim words it: rule 1 tests absence of the
    URL, rule 4 compares the optional currentAssignee with the recommended
    assignee as values. -/
def claimRuleList : List ((DecInput → Bool) × Action) :=
  [ (fun i => i.n.url.isNone, Action.skip),
    (fun i => i.p.isNone, Action.skip),
    (fun i =>
      match i.p with
      | some pr => decide (pr.confidence.getD 0 < i.pol.min_confidence)
      | none => false, Action.skip),
    (fun i =>
      match i.p with
      | some pr => decide (i.n.current_assignee = some pr.recommended_assignee)
      | none => false, Action.skip),
    (fun i => i.pol.dry_run, Action.simulateApply) ]

def claimDecide (x : DecInput) : Action := firstMatch claimRuleList Action.applyAction x

/-- The rule list as the source actually evaluates it: rule 1 also fires on a
    present-but-empty URL, and rule 4 compares the currentAssignee defaulted
    to the empty string when absent. -/
def amendedRuleList : List ((DecInput → Bool) × Action) :=
  [ (fun i => decide (i.n.url.getD "" = ""), Action.skip),
    (fun i => i.p.isNone, Action.skip),
    (fun i =>
      match i.p with
      | some pr => decide (pr.confidence.getD 0 < i.pol.min_confidence)
      | none => false, Action.skip),
    (fun i =>
      match i.p with
      | some pr => decide (i.n.current_assignee.getD "" = pr.recommended_assignee)
      | none => false, Action.skip),
    (fun i => i.pol.dry_run, Action.simulateApply) ]

def amendedDecide (x : DecInput) : Action := firstMatch amendedRuleList Action.applyAction x

/-! ## Claim C9: scenario 1 extraction -/

/-- C9: on subject "Issue #42: Fix login bug | backend" with a body containing
    the canonical issue link and the line "Assignee: @alice", the extractor
    yields exactly title "Fix login bug", issueNumber "42", currentAssignee
    "alice" and url set to that link, and no other field. -/
theorem scenario_one_extraction :
    extract_issue_info "Issue #42: Fix login bug | backend"
      "https://git.example.com/team/backend/-/issues/42\nAssignee: @alice"
    = some
      { url := some "https://git.example.com/team/backend/-/issues/42"
        title := some "Fix login bug"
        issue_number := some "42"
        current_assignee := some "alice"
        description := none
        labels := none
        project := none } := by
  decide

/-! ## Claim C3: totality and the total non-match result -/

/-- C3 counterexample: on the totally non-matching input pair ("", "") the
    extractor returns Python None — no notification at all — not an
    IssueNotification with every field absent as the claim states. -/
theorem extract_total_nonmatch_returns_none :
    extract_issue_info "" "" = none := by
  decide

/-- C3 amended: the extractor is a total function, and it returns no
    notification exactly when none of the seven field extractions matched;
    otherwise it returns the structurally valid notification of the matched
    fields. -/
theorem extract_none_iff_no_field_matched (subject body : String) :
    extract_issue_info subject body = none ↔
      (extract_url body = none ∧ extract_title subject = none
        ∧ extract_issue_number subject = none ∧ extract_current_assignee body = none
        ∧ extract_description body = none ∧ extract_labels body = none
        ∧ extract_project body = none) := by
  unfold extract_issue_info
  dsimp only
  split_ifs with h
  · simp only [Option.isNone_iff_eq_none] at h
    simp [h]
  · simp only [Option.isNone_iff_eq_none] at h
    constructor
    · intro hc
      simp at hc
    · intro hc
      exact absurd hc h

/-! ## Claim C4: absent versus empty-string fields -/

/-- C4 counterexample: the extractor stores a present-but-empty title for the
    subject " |" (the trimmed capture of the most permissive title pattern is
    empty), and the decision step treats a notification with no
    currentAssignee as already assigned to a recommended assignee that is the
    empty string — absence is conflated with the empty string on both cited
    sides. -/
theorem empty_string_field_counterexample :
    extract_issue_info " |" ""
      = some
        { url := none, title := some "", issue_number := none, current_assignee := none
          description := none, labels := none, project := none }
    ∧ decideStep
        { url := some "u", title := none, issue_number := none, current_assignee := none
          description := none, labels := none, project := none }
        (some { recommended_assignee := "", confidence := some 1, reasoning := "" })
        { min_confidence := 0, dry_run := false }
      = Decision.skipAlreadyAssigned := by
  constructor
  · decide
  · decide

/-- C4 amended: the decision step cannot distinguish a notification without a
    currentAssignee from one whose currentAssignee is present but empty: the
    source defaults the missing key to the empty string before comparing. -/
theorem decide_conflates_absent_and_empty_assignee (n : IssueNotification)
    (p : Option Prediction) (pol : Policy) :
    decideStep { n with current_assignee := none } p pol
      = decideStep { n with current_assignee := some "" } p pol := by
  rfl

/-! ## Claim C7: URL shapes accepted by extractor and workflow -/

/-- C7 counterexample: the extractor places the URL "http://h/issues/1" into a
    notification, but the workflow's resolver fails on it (its path has no
    group/project segments), so the two URL languages are not the same and an
    extracted URL need not resolve. -/
theorem url_languages_differ_counterexample :
    extract_url "http://h/issues/1" = some "http://h/issues/1"
    ∧ parse_issue_url "http://h/issues/1" = none := by
  constructor
  · decide
  · decide

/-- C7 amended: the extractor's URL matcher and the workflow's URL resolver do
    not accept the same set of URLs, and neither accepted set contains the
    other.  Representative URLs of both path styles (with and without the dash
    infix segment, issues and merge_requests) are accepted by both; but the
    extractor accepts URLs the resolver cannot parse (the resolver requires
    two path segments before the marker), and the resolver accepts URLs the
    extractor never matches (urlparse handles the scheme case-insensitively
    while the extractor's pattern is case-sensitive). -/
theorem url_languages_incomparable :
    parse_issue_url "https://git.example.com/team/backend/-/issues/42"
      = some ("team/backend", 42)
    ∧ parse_issue_url "https://git.example.com/team/backend/issues/42"
      = some ("team/backend", 42)
    ∧ parse_issue_url "https://git.example.com/team/backend/-/merge_requests/42"
      = some ("team/backend", 42)
    ∧ parse_issue_url "https://git.example.com/team/backend/merge_requests/42"
      = some ("team/backend", 42)
    ∧ extract_url "https://git.example.com/team/backend/-/issues/42"
      = some "https://git.example.com/team/backend/-/issues/42"
    ∧ extract_url "https://git.example.com/team/backend/issues/42"
      = some "https://git.example.com/team/backend/issues/42"
    ∧ extract_url "http://host/merge_requests/7" = some "http://host/merge_requests/7"
    ∧ parse_issue_url "http://host/merge_requests/7" = none
    ∧ parse_issue_url "HTTP://h/g/p/issues/1" = some ("g/p", 1)
    ∧ extract_url "HTTP://h/g/p/issues/1" = none := by
  refine ⟨by decide, by decide, by decide, by decide, by decide, by decide, by decide,
    by decide, by decide, by decide⟩

/-! ## Claim C1: the decision step as an ordered rule list -/

/-- C1 counterexample: the source's decision step deviates from the claimed
    rule list on two corners.  A present-but-empty URL is skipped by the code
    although the claimed rule 1 ("absent notification URL") does not fire; and
    a notification with no currentAssignee is skipped as already assigned when
    the recommended assignee is the empty string, although the claimed rule 4
    compares the actual field values.  In both cases the claimed rule list
    reaches Apply. -/
theorem rule_list_counterexample :
    decideStep
        { url := some "", title := none, issue_number := none, current_assignee := none
          description := none, labels := none, project := none }
        (some { recommended_assignee := "bob", confidence := some 1, reasoning := "" })
        { min_confidence := 0, dry_run := false }
      = Decision.skipNoUrl
    ∧ claimDecide
        ⟨{ url := some "", title := none, issue_number := none, current_assignee := none
           description := none, labels := none, project := none },
          some { recommended_assignee := "bob", confidence := some 1, reasoning := "" },
          { min_confidence := 0, dry_run := false }⟩
      = Action.applyAction
    ∧ decideStep
        { url := some "u", title := none, issue_number := none, current_assignee := none
          description := none, labels := none, project := none }
        (some { recommended_assignee := "", confidence := some 1, reasoning := "" })
        { min_confidence := 0, dry_run := false }
      = Decision.skipAlreadyAssigned
    ∧ claimDecide
        ⟨{ url := some "u", title := none, issue_number := none, current_assignee := none
           description := none, labels := none, project := none },
          some { recommended_assignee := "", confidence := some 1, reasoning := "" },
          { min_confidence := 0, dry_run := false }⟩
      = Action.applyAction := by
  refine ⟨by decide, by decide, by decide, by decide⟩

/-- C1 amended: the decision step is a pure function of (notification,
    prediction, policy) equal to first-match-wins evaluation of the fixed
    ordered rule list in which rule 1 fires on an absent or empty URL and
    rule 4 compares the currentAssignee defaulted to the empty string against
    the recommended assignee; the later rules are unchanged: confidence below
    minConfidence skips, dryRun simulates, otherwise apply. -/
theorem decide_follows_amended_rule_list (n : IssueNotification) (p : Option Prediction)
    (pol : Policy) :
    (decideStep n p pol).action = amendedDecide ⟨n, p, pol⟩ := by
  unfold decideStep amendedDecide firstMatch amendedRuleList
  by_cases h1 : n.url.getD "" = ""
  · simp [h1, Decision.action]
  · cases p with
    | none => simp [h1, Decision.action]
    | some pred =>
      by_cases h3 : pred.confidence.getD 0 < pol.min_confidence
      · simp [h1, h3, Decision.action]
      · by_cases h4 : n.current_assignee.getD "" = pred.recommended_assignee
        · simp [h1, h3, h4, Decision.action]
        · by_cases h5 : pol.dry_run
          · simp [h1, h3, h4, h5, Decision.action]
          · simp [h1, h3, h4, h5, Decision.action]

/-! ## Claim C2: idempotency of the decision step -/

/-- C2: whenever the notification's currentAssignee is present and equal, as a
    string, to the prediction's recommendedAssignee, the decision step skips,
    whatever the confidence, the minimum confidence and the dry-run flag. -/
theorem decide_idempotent_on_matching_assignee (n : IssueNotification) (pred : Prediction)
    (pol : Policy) (h : n.current_assignee = some pred.recommended_assignee) :
    (decideStep n (some pred) pol).action = Action.skip := by
  unfold decideStep
  by_cases h1 : n.url.getD "" = ""
  · simp [h1, Decision.action]
  · by_cases h3 : pred.confidence.getD 0 < pol.min_confidence
    · simp [h1, h3, Decision.action]
    · simp [h1, h3, h, Decision.action]

/-- C2 witness: a concrete already-assigned notification is skipped even with
    confidence far above the threshold and dry run off. -/
theorem decide_idempotent_witness :
    (decideStep
        { url := some "https://h/g/p/issues/1", title := none, issue_number := none
          current_assignee := some "bob", description := none, labels := none
          project := none }
        (some { recommended_assignee := "bob", confidence := some 1, reasoning := "" })
        { min_confidence := 0, dry_run := false }).action = Action.skip :=
  decide_idempotent_on_matching_assignee _ _ _ rfl

/-! ## Claim C5: response validation and its effect on the decision -/

/-- The string check of the validator characterised. -/
theorem isStringVal_iff_jstr (v : JVal) : isStringVal v = true ↔ ∃ s, v = JVal.jstr s := by
  cases v <;> simp [isStringVal]

/-- C5: the validator accepts exactly the responses whose
    recommended_assignee is present and a string, whose confidence, when
    present, is numeric, and whose alternatives, when present, are a list (no
    other field is examined); a response failing this yields no prediction,
    and the decision step skips any notification without a prediction. -/
theorem validation_iff_and_invalid_skips :
    (∀ o : List (String × JVal),
      validate_prediction_response o = true ↔
        ((∃ s, jlookup o "recommended_assignee" = some (JVal.jstr s))
          ∧ (∀ v, jlookup o "confidence" = some v → isNumberVal v = true)
          ∧ (∀ v, jlookup o "alternatives" = some v → isListVal v = true)))
    ∧ (∀ o : List (String × JVal),
        validate_prediction_response o = false → predict_assignee o = none)
    ∧ (∀ (n : IssueNotification) (pol : Policy),
        (decideStep n none pol).action = Action.skip) := by
  refine ⟨?_, ?_, ?_⟩
  · intro o
    unfold validate_prediction_response
    cases hra : jlookup o "recommended_assignee" with
    | none => simp [hra]
    | some v =>
      cases hc : jlookup o "confidence" with
      | none =>
        cases ha : jlookup o "alternatives" with
        | none => simp [hra, Bool.and_eq_true, isStringVal_iff_jstr]
        | some a => simp [hra, Bool.and_eq_true, isStringVal_iff_jstr]
      | some c =>
        cases ha : jlookup o "alternatives" with
        | none => simp [hra, Bool.and_eq_true, isStringVal_iff_jstr]
        | some a => simp [hra, Bool.and_eq_true, isStringVal_iff_jstr, and_assoc]
  · intro o h
    unfold predict_assignee
    simp [h]
  · intro n pol
    unfold decideStep
    by_cases h1 : n.url.getD "" = "" <;> simp [h1, Decision.action]

/-- C5 witness: the scenario-4 response that lacks recommended_assignee is
    rejected by the validator, so the pipeline gets no prediction from it. -/
theorem invalid_response_witness :
    predict_assignee [("confidence", JVal.jnum 1)] = none :=
  validation_iff_and_invalid_skips.2.1 _ (by decide)

/-! ## Claim C6: dry-run purity -/

/-- C6: when the URL is usable, the prediction valid and confident enough, the
    assignees differ and the policy is dry-run, the decision is SimulateApply
    and processing the notification performs no tracker mutation at all: the
    state is unchanged, the effect trace empty, and the workflow never
    entered. -/
theorem dry_run_performs_no_mutation (g : GitLabState) (n : IssueNotification)
    (pred : Prediction) (pol : Policy)
    (h1 : n.url.getD "" ≠ "")
    (h2 : ¬ pred.confidence.getD 0 < pol.min_confidence)
    (h3 : n.current_assignee.getD "" ≠ pred.recommended_assignee)
    (h4 : pol.dry_run = true) :
    decideStep n (some pred) pol = Decision.simulate pred
    ∧ process_gitlab_notification g n (some pred) pol = (true, g, []) := by
  have hd : decideStep n (some pred) pol = Decision.simulate pred := by
    unfold decideStep
    simp [h1, h2, h3, h4]
  refine ⟨hd, ?_⟩
  unfold process_gitlab_notification
  rw [hd]

/-- C6 witness: a concrete dry-run cycle leaves a concrete tracker state
    untouched and reports SimulateApply. -/
theorem dry_run_witness :
    decideStep
        { url := some "https://h/g/p/issues/1", title := none, issue_number := none
          current_assignee := none, description := none, labels := none, project := none }
        (some { recommended_assignee := "alice", confidence := some 1, reasoning := "" })
        { min_confidence := 1, dry_run := true }
      = Decision.simulate
          { recommended_assignee := "alice", confidence := some 1, reasoning := "" }
    ∧ process_gitlab_notification
        { issues := [(("g/p", 1), { assignee := some "bob", notes := [] })],
          members := [("g/p", ["alice", "bob"])], users := ["alice", "bob"] }
        { url := some "https://h/g/p/issues/1", title := none, issue_number := none
          current_assignee := none, description := none, labels := none, project := none }
        (some { recommended_assignee := "alice", confidence := some 1, reasoning := "" })
        { min_confidence := 1, dry_run := true }
      = (true,
          { issues := [(("g/p", 1), { assignee := some "bob", notes := [] })],
            members := [("g/p", ["alice", "bob"])], users := ["alice", "bob"] }, []) :=
  dry_run_performs_no_mutation _ _ _ _ (by decide) (by decide) (by decide) rfl

/-! ## Claim C8: the workflow's second idempotency guard -/

/-- C8: when the re-fetched live issue already carries the recommended
    assignee, the reassignment workflow returns success while performing
    neither the reassignment mutation nor any comment posting: the state is
    returned unchanged with an empty effect trace, so commentPosted is false. -/
theorem live_already_assigned_short_circuits (g : GitLabState)
    (url new_assignee reasoning proj : String) (iid : Nat) (issue : GitLabIssue)
    (hp : parse_issue_url url = some (proj, iid))
    (hv : validate_assignee g proj new_assignee = true)
    (hi : getIssue g proj iid = some issue)
    (ha : issue.assignee = some new_assignee) :
    process_reassignment g url new_assignee reasoning = (true, g, []) := by
  unfold process_reassignment
  rw [hp]
  simp [hv, hi, ha]

/-- C8 witness: the guard on a concrete state holding one issue already
    assigned to the target. -/
theorem live_already_assigned_witness :
    process_reassignment
        { issues := [(("g/p", 1), { assignee := some "bob", notes := [] })],
          members := [("g/p", ["bob", "alice"])], users := ["bob", "alice"] }
        "https://h/g/p/issues/1" "bob" ""
      = (true,
          { issues := [(("g/p", 1), { assignee := some "bob", notes := [] })],
            members := [("g/p", ["bob", "alice"])], users := ["bob", "alice"] }, []) :=
  live_already_assigned_short_circuits _ _ _ _ "g/p" 1
    { assignee := some "bob", notes := [] } (by decide) (by decide) (by decide) rfl

/-! ## Claim C10: the asymmetric boolean result and the cycle count -/

/-- C10: processing one notification reports False on the missing-URL,
    missing-or-invalid-prediction and low-confidence skips, and True on the
    already-assigned and dry-run outcomes, and the count run_once returns is
    exactly the number of True results along the cycle, so already-assigned
    and dry-run items are counted as processed and confidence-gated ones are
    not. -/
theorem process_result_asymmetry_and_count :
    (∀ (g : GitLabState) (n : IssueNotification) (p : Option Prediction) (pol : Policy),
      n.url.getD "" = "" → (process_gitlab_notification g n p pol).1 = false)
    ∧ (∀ (g : GitLabState) (n : IssueNotification) (pol : Policy),
        (process_gitlab_notification g n none pol).1 = false)
    ∧ (∀ (g : GitLabState) (n : IssueNotification) (pred : Prediction) (pol : Policy),
        pred.confidence.getD 0 < pol.min_confidence →
        (process_gitlab_notification g n (some pred) pol).1 = false)
    ∧ (∀ (g : GitLabState) (n : IssueNotification) (pred : Prediction) (pol : Policy),
        n.url.getD "" ≠ "" → ¬ pred.confidence.getD 0 < pol.min_confidence →
        n.current_assignee.getD "" = pred.recommended_assignee →
        (process_gitlab_notification g n (some pred) pol).1 = true)
    ∧ (∀ (g : GitLabState) (n : IssueNotification) (pred : Prediction) (pol : Policy),
        n.url.getD "" ≠ "" → ¬ pred.confidence.getD 0 < pol.min_confidence →
        n.current_assignee.getD "" ≠ pred.recommended_assignee → pol.dry_run = true →
        (process_gitlab_notification g n (some pred) pol).1 = true)
    ∧ (∀ (g : GitLabState) (pol : Policy)
        (items : List (IssueNotification × Option Prediction)),
        (run_once g pol items).1 = (processResults g pol items).count true) := by
  refine ⟨?_, ?_, ?_, ?_, ?_, ?_⟩
  · intro g n p pol h1
    unfold process_gitlab_notification decideStep
    simp [h1]
  · intro g n pol
    unfold process_gitlab_notification decideStep
    by_cases h1 : n.url.getD "" = "" <;> simp [h1]
  · intro g n pred pol h3
    unfold process_gitlab_notification decideStep
    by_cases h1 : n.url.getD "" = "" <;> simp [h1, h3]
  · intro g n pred pol h1 h3 h4
    unfold process_gitlab_notification decideStep
    simp [h1, h3, h4]
  · intro g n pred pol h1 h3 h4 h5
    unfold process_gitlab_notification decideStep
    simp [h1, h3, h4, h5]
  · intro g pol items
    induction items generalizing g with
    | nil => rfl
    | cons item rest ih =>
      cases item with
      | mk n p =>
        unfold run_once processResults
        dsimp only
        rw [ih]
        cases h : (process_gitlab_notification g n p pol).1 <;>
          simp [h, List.count_cons, Nat.add_comm]

/-- C10 witness: a concrete already-assigned notification reports success. -/
theorem process_result_witness :
    (process_gitlab_notification
        { issues := [], members := [], users := [] }
        { url := some "u", title := none, issue_number := none
          current_assignee := some "bob", description := none, labels := none
          project := none }
        (some { recommended_assignee := "bob", confidence := some 1, reasoning := "" })
        { min_confidence := 0, dry_run := false }).1 = true :=
  process_result_asymmetry_and_count.2.2.2.1 _ _ _ _ (by decide) (by decide) rfl

end MailboxMonitor
